import Mathlib

/-!
Verification of the flight-sun geometry engine
(`calculateSunPositionForFlight` in `src/components/GlobeDisplay.tsx`,
the `flightCalculator` module of the repository).

The engine is embedded shallowly:

* angles (degrees) and fractions are rationals (`ℚ`);
* instants are integers counting milliseconds since the epoch, exactly the
  value of JavaScript `Date.prototype.getTime`;
* the external libraries the engine calls (`geolib` for
  `getDistance` / `getRhumbLineBearing` / `computeDestinationPoint`,
  `suncalc` for `getPosition` / `getTimes`) are an explicit parameter,
  the `Oracle` structure below.  `getPosition` is taken to return the sun
  azimuth and altitude already scaled to degrees (the source multiplies the
  radian values by `180 / π` at the call site); the `+ 180) % 360` shift
  applied by the source to the azimuth is kept in the embedding (`jsRem`).
  `getTimes` returns `Option` instants: `none` stands for the not-a-time
  sentinel (an invalid `Date`, whose `getTime()` is `NaN`); every comparison
  of JavaScript `NaN` is false, which is what the `nearB` helper implements.
* The `try`/`catch` of the source has exactly one `throw` site (airport
  lookup failure), so the embedding is a total function matching on the two
  lookups.
-/

/-- A latitude/longitude pair, degrees. -/
structure Coord where
  lat : ℚ
  lon : ℚ
deriving DecidableEq, Repr

/-- Airport record of the static dataset (`airports.json`). -/
structure Airport where
  iata : String
  name : String
  latitude : ℚ
  longitude : ℚ
deriving DecidableEq, Repr

/-- Input of the calculation (`FlightDetails` in the source).
`departureTime` is epoch milliseconds; `durationMinutes` a natural number
(the input contract restricts it to integers in 30..1200). -/
structure FlightDetails where
  departure : String
  arrival : String
  departureTime : ℤ
  durationMinutes : ℕ
deriving DecidableEq, Repr

/-- Event kind of a `SunEvent`. -/
inductive EventType
  | sunrise
  | sunset
deriving DecidableEq, Repr

/-- Cabin side, as stored in `viewingSide` fields. -/
inductive Side
  | left
  | right
deriving DecidableEq, Repr

/-- Recommendation value: a side or `either`. -/
inductive Rec3
  | left
  | right
  | either
deriving DecidableEq, Repr

/-- A sunrise/sunset event (`SunEvent` in the source). -/
structure SunEvent where
  type : EventType
  time : ℤ
  location : Coord
  sunAzimuth : ℚ
  aircraftBearing : ℚ
  viewingSide : Side
  elevation : ℚ
deriving DecidableEq, Repr

/-- Sun position block of a flight-path point. -/
structure SunPos where
  azimuth : ℚ
  elevation : ℚ
  visible : Bool
deriving DecidableEq, Repr

/-- One sample of the trajectory (`FlightPathPoint` in the source). -/
structure FlightPathPoint where
  time : ℤ
  location : Coord
  progress : ℚ
  sunPosition : SunPos
  aircraftBearing : ℚ
  viewingSide : Option Side
deriving DecidableEq, Repr

/-- The `summary` block of `globeData`. -/
structure Summary where
  totalSunriseEvents : ℕ
  totalSunsetEvents : ℕ
  averageSunVisibility : ℚ
  bestViewingSide : Rec3
deriving DecidableEq, Repr

/-- The `globeData` block of the result. -/
structure GlobeData where
  departure : Airport
  arrival : Airport
  flightPath : List FlightPathPoint
  totalDistance : ℚ
  totalDuration : ℕ
  summary : Summary
deriving DecidableEq, Repr

/-- The value returned by the calculation (`FlightRecommendation`). -/
structure FlightRecommendation where
  recommendation : Rec3
  confidence : ℚ
  description : String
  events : List SunEvent
  globeData : GlobeData
deriving DecidableEq, Repr

/-- Raw sun position as delivered by `suncalc.getPosition`, with both angles
already scaled from radians to degrees (the scaling `* 180 / Math.PI` is done
by the source at the call site and is absorbed into this interface).
`suncalc` yields an azimuth in `(-π, π]`, i.e. `azimuthDeg ∈ (-180, 180]`. -/
structure SunRaw where
  azimuthDeg : ℚ
  altitudeDeg : ℚ
deriving DecidableEq, Repr

/-- The external collaborators of the engine: the three `geolib` geodesy
functions and the two `suncalc` functions.  `getTimes` returns the day's
sunrise and sunset instants in epoch milliseconds, `none` standing for the
not-a-time sentinel returned at polar day/night. -/
structure Oracle where
  getDistance : Coord → Coord → ℚ
  getRhumbLineBearing : Coord → Coord → ℚ
  computeDestinationPoint : Coord → ℚ → ℚ → Coord
  getPosition : ℤ → Coord → SunRaw
  getTimes : ℤ → Coord → Option ℤ × Option ℤ

/-- Truncation of a rational toward zero, the rounding used by the
JavaScript `%` operator. -/
def truncQ (q : ℚ) : ℤ :=
  if 0 ≤ q then ⌊q⌋ else ⌈q⌉

/-- The JavaScript remainder operator `x % y` on numbers: the remainder of
the division of `x` by `y` with the quotient truncated toward zero. -/
def jsRem (x y : ℚ) : ℚ :=
  x - y * truncQ (x / y)

/-- Viewing-side classification of a sample (source lines
`let azimuthDiff = sunAzimuthDegrees - flightBearing; if (azimuthDiff < 0)
azimuthDiff += 360; if (azimuthDiff > 360) azimuthDiff -= 360;
viewingSide = (azimuthDiff > 0 && azimuthDiff < 180) ? 'right' : 'left'`). -/
def sideOf (sunAzimuthDegrees flightBearing : ℚ) : Side :=
  let azimuthDiff0 := sunAzimuthDegrees - flightBearing
  let azimuthDiff1 := if azimuthDiff0 < 0 then azimuthDiff0 + 360 else azimuthDiff0
  let azimuthDiff := if 360 < azimuthDiff1 then azimuthDiff1 - 360 else azimuthDiff1
  if 0 < azimuthDiff ∧ azimuthDiff < 180 then Side.right else Side.left

/-- `Math.abs(t - s.getTime()) < 15 * 60 * 1000` where `s` may be an invalid
`Date`: a comparison against `NaN` is false, hence the `none` branch. -/
def nearB (t : ℤ) (s : Option ℤ) : Bool :=
  match s with
  | none => false
  | some st => decide ((t - st).natAbs < 15 * 60 * 1000)

/-- `numIntervals = Math.ceil(flightDetails.durationMinutes / intervalMinutes)`
with `intervalMinutes = 5`. -/
def numIntervals (fd : FlightDetails) : ℕ :=
  ⌈(fd.durationMinutes : ℚ) / 5⌉₊

/-- The body of the sampling loop at index `i`: the flight-path point pushed
onto `flightPath`, paired with the raw sunrise/sunset event (if any) pushed
onto `sunEvents` at that sample. -/
def sampleStep (O : Oracle) (fd : FlightDetails) (departureCoords : Coord)
    (totalDistance flightBearing : ℚ) (i : ℕ) : FlightPathPoint × Option SunEvent :=
  let timeOffsetMinutes : ℕ := min (i * 5) fd.durationMinutes
  let progress : ℚ := (timeOffsetMinutes : ℚ) / (fd.durationMinutes : ℚ)
  let intermediateDistance : ℚ := totalDistance * progress
  let currentPosition : Coord :=
    O.computeDestinationPoint departureCoords intermediateDistance flightBearing
  let currentTime : ℤ := fd.departureTime + (timeOffsetMinutes : ℤ) * 60 * 1000
  let raw := O.getPosition currentTime currentPosition
  let sunAzimuthDegrees : ℚ := jsRem (raw.azimuthDeg + 180) 360
  let sunElevationDegrees : ℚ := raw.altitudeDeg
  let sunVisible : Bool := decide (0 < sunElevationDegrees)
  let viewingSide : Option Side :=
    if sunVisible then some (sideOf sunAzimuthDegrees flightBearing) else none
  let ev : Option SunEvent :=
    if sunVisible then
      let times := O.getTimes currentTime currentPosition
      let isNearSunrise := nearB currentTime times.1
      let isNearSunset := nearB currentTime times.2
      if (isNearSunrise || isNearSunset) && decide ((-5 : ℚ) < sunElevationDegrees) then
        some { type := if isNearSunrise then EventType.sunrise else EventType.sunset
               time := currentTime
               location := currentPosition
               sunAzimuth := sunAzimuthDegrees
               aircraftBearing := flightBearing
               viewingSide := sideOf sunAzimuthDegrees flightBearing
               elevation := sunElevationDegrees }
      else none
    else none
  ({ time := currentTime
     location := currentPosition
     progress := progress
     sunPosition := { azimuth := sunAzimuthDegrees
                      elevation := sunElevationDegrees
                      visible := sunVisible }
     aircraftBearing := flightBearing
     viewingSide := viewingSide }, ev)

/-- The `flightPath` array produced by the sampling loop. -/
def flightPathOf (O : Oracle) (fd : FlightDetails)
    (departureAirport arrivalAirport : Airport) : List FlightPathPoint :=
  let departureCoords : Coord := ⟨departureAirport.latitude, departureAirport.longitude⟩
  let arrivalCoords : Coord := ⟨arrivalAirport.latitude, arrivalAirport.longitude⟩
  (List.range (numIntervals fd + 1)).map fun i =>
    (sampleStep O fd departureCoords
      (O.getDistance departureCoords arrivalCoords)
      (O.getRhumbLineBearing departureCoords arrivalCoords) i).1

/-- The raw `sunEvents` array produced by the sampling loop. -/
def sunEventsOf (O : Oracle) (fd : FlightDetails)
    (departureAirport arrivalAirport : Airport) : List SunEvent :=
  let departureCoords : Coord := ⟨departureAirport.latitude, departureAirport.longitude⟩
  let arrivalCoords : Coord := ⟨arrivalAirport.latitude, arrivalAirport.longitude⟩
  (List.range (numIntervals fd + 1)).filterMap fun i =>
    (sampleStep O fd departureCoords
      (O.getDistance departureCoords arrivalCoords)
      (O.getRhumbLineBearing departureCoords arrivalCoords) i).2

/-- The deduplication predicate of the source:
`e.type === event.type && Math.abs(e.time - event.time) < 10 * 60 * 1000`. -/
def nearSameType (e ev : SunEvent) : Bool :=
  e.type == ev.type && decide ((e.time - ev.time).natAbs < 10 * 60 * 1000)

/-- One step of the deduplicating filter: the event at position `i` is kept
exactly when `findIndex` of the same-type-within-ten-minutes predicate over
the whole array returns `i` itself. -/
def keepAt (es : List SunEvent) (i : ℕ) : Option SunEvent :=
  match es.get? i with
  | some ev => if es.findIdx (fun e => nearSameType e ev) = i then some ev else none
  | none => none

/-- `sunEvents.filter((event, index, self) => index === self.findIndex(e =>
e.type === event.type && Math.abs(e.time - event.time) < 10 * 60 * 1000))`:
the event at position `index` is kept exactly when the first event of the
same type within ten minutes of it is the event itself. -/
def uniqueEvents (es : List SunEvent) : List SunEvent :=
  (List.range es.length).filterMap (keepAt es)

/-- Two-digit zero padding, as in an `HH:mm` format string. -/
def pad2 (n : ℕ) : String :=
  if n < 10 then "0" ++ toString n else toString n

/-- `formatInTimeZone(time, 'UTC', 'HH:mm')` on an epoch-millisecond instant. -/
def hhmm (t : ℤ) : String :=
  let minutesOfDay := ((t / 60000) % 1440).toNat
  pad2 (minutesOfDay / 60) ++ ":" ++ pad2 (minutesOfDay % 60)

/-- Rendering of an event type into the description text. -/
def typeStr : EventType → String
  | EventType.sunrise => "sunrise"
  | EventType.sunset => "sunset"

/-- Rendering of a viewing side into the description text. -/
def sideStr : Side → String
  | Side.left => "left"
  | Side.right => "right"

/-- One entry of the `Events:` list appended to the description. -/
def eventDescription (e : SunEvent) : String :=
  typeStr e.type ++ " at " ++ hhmm e.time ++ " UTC (" ++ sideStr e.viewingSide ++ " side)"

/-- The recommendation/confidence/description triple of the result. -/
structure Decision where
  recommendation : Rec3
  confidence : ℚ
  description : String
deriving DecidableEq, Repr

/-- The aggregation policy of Step 6 of the source, applied to the
deduplicated events and the per-sample tallies. -/
def recommendationFor (uniq : List SunEvent)
    (sunVisibleCount leftSideCount rightSideCount : ℕ) : Decision :=
  if 0 < uniq.length then
    let leftEvents := (uniq.filter fun e => e.viewingSide == Side.left).length
    let rightEvents := (uniq.filter fun e => e.viewingSide == Side.right).length
    let base : Decision :=
      if rightEvents < leftEvents then
        { recommendation := Rec3.left
          confidence := min 95 (60 + (leftEvents : ℚ) * 15)
          description := "Choose the LEFT side for the best view! " ++ toString leftEvents
            ++ " sunrise/sunset event(s) visible on the left side." }
      else if leftEvents < rightEvents then
        { recommendation := Rec3.right
          confidence := min 95 (60 + (rightEvents : ℚ) * 15)
          description := "Choose the RIGHT side for the best view! " ++ toString rightEvents
            ++ " sunrise/sunset event(s) visible on the right side." }
      else
        { recommendation := Rec3.either
          confidence := 75
          description :=
            "Either side works well! Sunrise/sunset events are visible from both sides of the aircraft." }
    { base with description := base.description ++ " Events: "
        ++ String.intercalate ", " (uniq.map eventDescription) ++ "." }
  else if 0 < sunVisibleCount then
    if (rightSideCount : ℚ) * 1.2 < (leftSideCount : ℚ) then
      { recommendation := Rec3.left
        confidence := min 80 (50 + (leftSideCount : ℚ) / (sunVisibleCount : ℚ) * 30)
        description := "Choose the LEFT side for better sun exposure during the flight." }
    else if (leftSideCount : ℚ) * 1.2 < (rightSideCount : ℚ) then
      { recommendation := Rec3.right
        confidence := min 80 (50 + (rightSideCount : ℚ) / (sunVisibleCount : ℚ) * 30)
        description := "Choose the RIGHT side for better sun exposure during the flight." }
    else
      { recommendation := Rec3.either
        confidence := 50
        description := "No significant sunrise or sunset events detected during this flight." }
  else
    { recommendation := Rec3.either
      confidence := 50
      description := "No significant sunrise or sunset events detected during this flight." }

/-- The successful branch of `calculateSunPositionForFlight`, entered once
both airport codes have resolved. -/
def happyPath (O : Oracle) (fd : FlightDetails)
    (departureAirport arrivalAirport : Airport) : FlightRecommendation :=
  let departureCoords : Coord := ⟨departureAirport.latitude, departureAirport.longitude⟩
  let arrivalCoords : Coord := ⟨arrivalAirport.latitude, arrivalAirport.longitude⟩
  let totalDistance := O.getDistance departureCoords arrivalCoords
  let flightPath := flightPathOf O fd departureAirport arrivalAirport
  let sunEvents := sunEventsOf O fd departureAirport arrivalAirport
  let sunVisibleCount := flightPath.countP fun p => p.sunPosition.visible
  let leftSideCount := flightPath.countP fun p => p.viewingSide == some Side.left
  let rightSideCount := flightPath.countP fun p => p.viewingSide == some Side.right
  let uniq := uniqueEvents sunEvents
  let dec := recommendationFor uniq sunVisibleCount leftSideCount rightSideCount
  let averageSunVisibility : ℚ :=
    if 0 < flightPath.length then
      ((sunVisibleCount : ℚ) / (flightPath.length : ℚ)) * 100
    else 0
  { recommendation := dec.recommendation
    confidence := dec.confidence
    description := dec.description
    events := uniq
    globeData :=
      { departure := departureAirport
        arrival := arrivalAirport
        flightPath := flightPath
        totalDistance := totalDistance
        totalDuration := fd.durationMinutes
        summary :=
          { totalSunriseEvents := (uniq.filter fun e => e.type == EventType.sunrise).length
            totalSunsetEvents := (uniq.filter fun e => e.type == EventType.sunset).length
            averageSunVisibility := averageSunVisibility
            bestViewingSide := dec.recommendation } } }

/-- The value built by the `catch` block after the `Airport not found`
error: `code` is the departure code when the departure lookup failed,
otherwise the arrival code. -/
def errorResult (fd : FlightDetails) (code : String) : FlightRecommendation :=
  { recommendation := Rec3.either
    confidence := 0
    description := "Unable to calculate sun position: Airport not found: " ++ code
    events := []
    globeData :=
      { departure := { iata := fd.departure, name := "Unknown", latitude := 0, longitude := 0 }
        arrival := { iata := fd.arrival, name := "Unknown", latitude := 0, longitude := 0 }
        flightPath := []
        totalDistance := 0
        totalDuration := fd.durationMinutes
        summary :=
          { totalSunriseEvents := 0
            totalSunsetEvents := 0
            averageSunVisibility := 0
            bestViewingSide := Rec3.either } } }

/-- The whole engine: the airport dataset is the `airports` list, the
external libraries the oracle `O`.  The single `throw` of the source body is
the airport-lookup failure, caught by the surrounding `catch`, so the
embedding matches on the two lookups. -/
def calculateSunPositionForFlight (O : Oracle) (airports : List Airport)
    (fd : FlightDetails) : FlightRecommendation :=
  match airports.find? (fun a => a.iata == fd.departure),
        airports.find? (fun a => a.iata == fd.arrival) with
  | some departureAirport, some arrivalAirport =>
      happyPath O fd departureAirport arrivalAirport
  | none, _ => errorResult fd fd.departure
  | some _, none => errorResult fd fd.arrival

/-- Modelled from the spec: the normalization of an angle "into `[0,360)`"
named by the specification of the viewing-side rule — the representative of
`x` modulo `360` lying in `[0, 360)`. -/
def qmod360 (x : ℚ) : ℚ :=
  x - 360 * ⌊x / 360⌋

/-- Modelled from the spec: the contract the geodesy collaborator
(`geolib`, not part of the repository sources) is specified to satisfy —
the distance from a point to itself is zero, and the destination point at
distance zero is the origin ("Must be exact inverse-consistent with
distanceMeters/bearing for distance=0 (returns origin)"). -/
def GeodesyContract (O : Oracle) : Prop :=
  (∀ c : Coord, O.getDistance c c = 0) ∧
  (∀ (c : Coord) (b : ℚ), O.computeDestinationPoint c 0 b = c)

/-- Modelled from the spec: the angle conventions of the external libraries
— `geolib.getRhumbLineBearing` returns degrees in `[0, 360)`, and the
`suncalc` azimuth is in `(-π, π]` radians, i.e. in `(-180, 180]` once scaled
to degrees (the embedding only needs `≥ -180`). -/
def ConventionContract (O : Oracle) : Prop :=
  (∀ a b : Coord, 0 ≤ O.getRhumbLineBearing a b ∧ O.getRhumbLineBearing a b < 360) ∧
  (∀ (t : ℤ) (c : Coord), -180 ≤ (O.getPosition t c).azimuthDeg ∧
    (O.getPosition t c).azimuthDeg ≤ 180)

/-- Three same-type events eight minutes apart: position 0 is retained,
positions 1 and 2 are discarded. -/
def dupE0 : SunEvent :=
  { type := EventType.sunrise, time := 0, location := ⟨0, 0⟩, sunAzimuth := 0
    aircraftBearing := 0, viewingSide := Side.left, elevation := 1 }

/-- Second event of the chain, eight minutes after `dupE0`. -/
def dupE1 : SunEvent :=
  { dupE0 with time := 480000 }

/-- Third event of the chain, sixteen minutes after `dupE0`. -/
def dupE2 : SunEvent :=
  { dupE0 with time := 960000 }

/-- Sample departure airport for concrete runs. -/
def wDep : Airport :=
  { iata := "AAA", name := "Alpha Field", latitude := 0, longitude := 0 }

/-- Sample arrival airport for concrete runs. -/
def wArr : Airport :=
  { iata := "BBB", name := "Bravo Field", latitude := 10, longitude := 10 }

/-- Sample airport dataset for concrete runs. -/
def wAirports : List Airport := [wDep, wArr]

/-- A concrete oracle for sample runs: zero distance and bearing, the
destination point always the origin, the sun fixed at azimuth 90° (in
suncalc degrees) and altitude 10°, the sunrise at the epoch and no
sunset. -/
def wOracle : Oracle :=
  { getDistance := fun _ _ => 0
    getRhumbLineBearing := fun _ _ => 0
    computeDestinationPoint := fun c _ _ => c
    getPosition := fun _ _ => { azimuthDeg := 90, altitudeDeg := 10 }
    getTimes := fun _ _ => (some 0, none) }

/-- The sample oracle with both solar instants missing (polar day/night). -/
def wOracleNT : Oracle :=
  { wOracle with getTimes := fun _ _ => (none, none) }

/-- A concrete five-minute flight between the sample airports. -/
def wFlight : FlightDetails :=
  { departure := "AAA", arrival := "BBB", departureTime := 0, durationMinutes := 5 }

/-- A concrete flight whose departure code resolves to no airport. -/
def wBad : FlightDetails :=
  { departure := "ZZZ", arrival := "BBB", departureTime := 0, durationMinutes := 5 }

/-- A concrete flight with equal departure and arrival codes. -/
def wSame : FlightDetails :=
  { departure := "AAA", arrival := "AAA", departureTime := 0, durationMinutes := 5 }

/-- The first point of the sample run: sun azimuth `(90 + 180) % 360 = 270`,
elevation `10`, viewing side `left`. -/
def wP0 : FlightPathPoint :=
  { time := 0, location := ⟨0, 0⟩, progress := 0
    sunPosition := { azimuth := 270, elevation := 10, visible := true }
    aircraftBearing := 0, viewingSide := some Side.left }

/-- The second and last point of the sample run. -/
def wP1 : FlightPathPoint :=
  { time := 300000, location := ⟨0, 0⟩, progress := 1
    sunPosition := { azimuth := 270, elevation := 10, visible := true }
    aircraftBearing := 0, viewingSide := some Side.left }

/-- The raw sunrise event emitted at the first sample of the sample run. -/
def wE0 : SunEvent :=
  { type := EventType.sunrise, time := 0, location := ⟨0, 0⟩, sunAzimuth := 270
    aircraftBearing := 0, viewingSide := Side.left, elevation := 10 }

/-- The raw sunrise event emitted at the second sample of the sample run;
deduplication discards it in favour of `wE0`. -/
def wE1 : SunEvent :=
  { wE0 with time := 300000 }

/-- The JavaScript remainder of a non-negative number by `360` lies in
`[0, 360)`. -/
theorem jsRem_nonneg_lt (x : ℚ) (hx : 0 ≤ x) :
    0 ≤ jsRem x 360 ∧ jsRem x 360 < 360 := by
  have h360 : (0 : ℚ) < 360 := by norm_num
  have hq : (0 : ℚ) ≤ x / 360 := div_nonneg hx (le_of_lt h360)
  have htr : truncQ (x / 360) = ⌊x / 360⌋ := by simp [truncQ, hq]
  have hfl : ((⌊x / 360⌋ : ℤ) : ℚ) ≤ x / 360 := Int.floor_le (x / 360)
  have hfl' : x / 360 < ((⌊x / 360⌋ : ℤ) : ℚ) + 1 := Int.lt_floor_add_one (x / 360)
  have h1 : ((⌊x / 360⌋ : ℤ) : ℚ) * 360 ≤ x := by
    have := (le_div_iff₀ h360).mp hfl
    linarith
  have h2 : x < (((⌊x / 360⌋ : ℤ) : ℚ) + 1) * 360 := by
    have := (div_lt_iff₀ h360).mp hfl'
    linarith
  constructor
  · simp only [jsRem, htr]
    linarith
  · simp only [jsRem, htr]
    linarith

/-- On `[0, 360)` the normalization `qmod360` is the identity. -/
theorem qmod360_eq_self (x : ℚ) (h0 : 0 ≤ x) (h1 : x < 360) : qmod360 x = x := by
  have : ⌊x / 360⌋ = 0 := by
    rw [Int.floor_eq_zero_iff]
    constructor
    · positivity
    · rw [div_lt_one (by norm_num : (0 : ℚ) < 360)] at *
      linarith
  simp [qmod360, this]

/-- On `(-360, 0)` the normalization `qmod360` adds one turn. -/
theorem qmod360_eq_add (x : ℚ) (h0 : -360 < x) (h1 : x < 0) : qmod360 x = x + 360 := by
  have hfl : ⌊x / 360⌋ = -1 := by
    have hlt : x / 360 < 0 := div_neg_of_neg_of_pos h1 (by norm_num)
    have hge : ((-1 : ℤ) : ℚ) ≤ x / 360 := by
      rw [le_div_iff₀ (by norm_num : (0 : ℚ) < 360)]
      push_cast
      linarith
    refine Int.floor_eq_iff.mpr ⟨hge, ?_⟩
    push_cast
    linarith
  rw [qmod360, hfl]
  push_cast
  ring

/-- The two-step normalization of the source (`+= 360` when negative,
`-= 360` when above `360`) agrees with the mathematical normalization into
`[0, 360)` whenever azimuth and bearing both lie in `[0, 360)`, and the
classification picks `right` exactly on `(0, 180)`. -/
theorem sideOf_spec (a b : ℚ) (ha0 : 0 ≤ a) (ha1 : a < 360) (hb0 : 0 ≤ b) (hb1 : b < 360) :
    0 ≤ qmod360 (a - b) ∧ qmod360 (a - b) < 360 ∧
      sideOf a b =
        (if 0 < qmod360 (a - b) ∧ qmod360 (a - b) < 180 then Side.right else Side.left) := by
  rcases lt_or_le (a - b) 0 with hneg | hpos
  · have hgt : -360 < a - b := by linarith
    have hq : qmod360 (a - b) = a - b + 360 := qmod360_eq_add _ hgt hneg
    refine ⟨by rw [hq]; linarith, by rw [hq]; linarith, ?_⟩
    simp only [sideOf, hq]
    rw [if_pos hneg, if_neg (by linarith : ¬(360 : ℚ) < a - b + 360)]
  · have hlt : a - b < 360 := by linarith
    have hq : qmod360 (a - b) = a - b := qmod360_eq_self _ hpos hlt
    refine ⟨by rw [hq]; linarith, by rw [hq]; linarith, ?_⟩
    simp only [sideOf, hq]
    rw [if_neg (by linarith : ¬a - b < 0), if_neg (by linarith : ¬(360 : ℚ) < a - b)]

/-- The computed sun azimuth `(azRaw + 180) % 360` lies in `[0, 360)` once
the raw azimuth is at least `-180`, and the classification of `sideOf`
matches the specified rule on the `[0, 360)`-normalized difference. -/
theorem az_side_spec (azRaw fb : ℚ) (haz : -180 ≤ azRaw) (hb0 : 0 ≤ fb) (hb1 : fb < 360) :
    0 ≤ qmod360 (jsRem (azRaw + 180) 360 - fb) ∧
    qmod360 (jsRem (azRaw + 180) 360 - fb) < 360 ∧
    sideOf (jsRem (azRaw + 180) 360) fb =
      (if 0 < qmod360 (jsRem (azRaw + 180) 360 - fb) ∧
          qmod360 (jsRem (azRaw + 180) 360 - fb) < 180
        then Side.right else Side.left) := by
  have h := jsRem_nonneg_lt (azRaw + 180) (by linarith)
  exact sideOf_spec _ _ h.1 h.2 hb0 hb1

/-- The viewing-side facts about the point a single loop iteration builds:
no side when the sun is not visible, and the specified side otherwise. -/
theorem sampleStep_viewingSide (O : Oracle) (fd : FlightDetails) (dc : Coord)
    (td fb : ℚ) (i : ℕ) (hb0 : 0 ≤ fb) (hb1 : fb < 360)
    (hA : ∀ (t : ℤ) (c : Coord), -180 ≤ (O.getPosition t c).azimuthDeg) :
    ((sampleStep O fd dc td fb i).1.sunPosition.visible = false →
      (sampleStep O fd dc td fb i).1.viewingSide = none) ∧
    ((sampleStep O fd dc td fb i).1.sunPosition.visible = true →
      0 ≤ qmod360 ((sampleStep O fd dc td fb i).1.sunPosition.azimuth - fb) ∧
      qmod360 ((sampleStep O fd dc td fb i).1.sunPosition.azimuth - fb) < 360 ∧
      (sampleStep O fd dc td fb i).1.viewingSide =
        some (if 0 < qmod360 ((sampleStep O fd dc td fb i).1.sunPosition.azimuth - fb) ∧
            qmod360 ((sampleStep O fd dc td fb i).1.sunPosition.azimuth - fb) < 180
          then Side.right else Side.left)) := by
  simp only [sampleStep]
  constructor
  · intro hvis
    simp only [hvis]
    simp
  · intro hvis
    have key := az_side_spec
      ((O.getPosition (fd.departureTime + ((min (i * 5) fd.durationMinutes : ℕ) : ℤ) * 60 * 1000)
        (O.computeDestinationPoint dc
          (td * (((min (i * 5) fd.durationMinutes : ℕ) : ℚ) / (fd.durationMinutes : ℚ)))
          fb)).azimuthDeg)
      fb (hA _ _) hb0 hb1
    exact ⟨key.1, key.2.1, by rw [if_pos hvis]; exact congrArg some key.2.2⟩

/-- C1. At every sampled flight-path point the viewing side is present
exactly when the sun is visible there, and in that case it is `right`
precisely when `(sunAzimuth - bearing)`, normalized into `[0, 360)`, lies
strictly between `0` and `180`, and `left` otherwise.  The range
hypotheses are the documented angle conventions of the external libraries
(`ConventionContract`). -/
theorem claim_C1 (O : Oracle) (fd : FlightDetails) (depA arrA : Airport)
    (hc : ConventionContract O) :
    ∀ p ∈ flightPathOf O fd depA arrA,
      (p.sunPosition.visible = false → p.viewingSide = none) ∧
      (p.sunPosition.visible = true →
        0 ≤ qmod360 (p.sunPosition.azimuth - p.aircraftBearing) ∧
        qmod360 (p.sunPosition.azimuth - p.aircraftBearing) < 360 ∧
        p.viewingSide =
          some (if 0 < qmod360 (p.sunPosition.azimuth - p.aircraftBearing) ∧
              qmod360 (p.sunPosition.azimuth - p.aircraftBearing) < 180
            then Side.right else Side.left)) := by
  intro p hp
  simp only [flightPathOf, List.mem_map, List.mem_range] at hp
  obtain ⟨i, -, rfl⟩ := hp
  have hb := hc.1 ⟨depA.latitude, depA.longitude⟩ ⟨arrA.latitude, arrA.longitude⟩
  exact sampleStep_viewingSide O fd _ _ _ i hb.1 hb.2 (fun t c => (hc.2 t c).1)

/-- Unfolding a flight-path sample at index `i`. -/
theorem flightPathOf_get (O : Oracle) (fd : FlightDetails) (depA arrA : Airport)
    (i : ℕ) (h : i < (flightPathOf O fd depA arrA).length) :
    (flightPathOf O fd depA arrA).get ⟨i, h⟩ =
      (sampleStep O fd ⟨depA.latitude, depA.longitude⟩
        (O.getDistance ⟨depA.latitude, depA.longitude⟩ ⟨arrA.latitude, arrA.longitude⟩)
        (O.getRhumbLineBearing ⟨depA.latitude, depA.longitude⟩ ⟨arrA.latitude, arrA.longitude⟩)
        i).1 := by
  simp [flightPathOf, List.get_eq_getElem, List.getElem_map, List.getElem_range]

/-- The length of the sampled path is `numIntervals + 1`. -/
theorem flightPathOf_length (O : Oracle) (fd : FlightDetails) (depA arrA : Airport) :
    (flightPathOf O fd depA arrA).length = numIntervals fd + 1 := by
  simp [flightPathOf]

/-- The sample time is the departure time advanced by the clamped offset. -/
theorem sampleStep_time (O : Oracle) (fd : FlightDetails) (dc : Coord)
    (td fb : ℚ) (i : ℕ) :
    (sampleStep O fd dc td fb i).1.time =
      fd.departureTime + ((min (i * 5) fd.durationMinutes : ℕ) : ℤ) * 60 * 1000 := rfl

/-- The sample progress is the clamped offset over the duration. -/
theorem sampleStep_progress (O : Oracle) (fd : FlightDetails) (dc : Coord)
    (td fb : ℚ) (i : ℕ) :
    (sampleStep O fd dc td fb i).1.progress =
      ((min (i * 5) fd.durationMinutes : ℕ) : ℚ) / (fd.durationMinutes : ℚ) := rfl

/-- Below the interval count, the raw offset `i * 5` is below the duration. -/
theorem five_mul_lt_of_lt_ceil (d : ℕ) {i : ℕ} (hi : i < ⌈(d : ℚ) / 5⌉₊) : i * 5 < d := by
  have h1 : (i : ℚ) < (d : ℚ) / 5 := Nat.lt_ceil.mp hi
  have h2 : (i : ℚ) * 5 < (d : ℚ) := (lt_div_iff₀ (by norm_num : (0 : ℚ) < 5)).mp h1
  exact_mod_cast h2

/-- The duration is at most the last raw offset `numIntervals * 5`. -/
theorem le_ceil_mul_five (d : ℕ) : d ≤ ⌈(d : ℚ) / 5⌉₊ * 5 := by
  have h1 : (d : ℚ) / 5 ≤ (⌈(d : ℚ) / 5⌉₊ : ℚ) := Nat.le_ceil _
  have h2 : (d : ℚ) ≤ (⌈(d : ℚ) / 5⌉₊ : ℚ) * 5 :=
    (div_le_iff₀ (by norm_num : (0 : ℚ) < 5)).mp h1
  exact_mod_cast h2

/-- The clamped offsets are strictly increasing along the sample range. -/
theorem offsets_strict_mono (fd : FlightDetails) {i j : ℕ}
    (hj : j < numIntervals fd + 1) (hij : i < j) :
    min (i * 5) fd.durationMinutes < min (j * 5) fd.durationMinutes := by
  have hi : i < numIntervals fd := lt_of_lt_of_le hij (Nat.lt_succ_iff.mp hj)
  have h5 : i * 5 < fd.durationMinutes := five_mul_lt_of_lt_ceil _ hi
  have hmin : min (i * 5) fd.durationMinutes = i * 5 := min_eq_left (le_of_lt h5)
  rw [hmin]
  exact lt_min ((Nat.mul_lt_mul_right (by norm_num : (0 : ℕ) < 5)).mpr hij) h5

/-- C2. With resolvable airports and a positive duration, the path has
exactly `ceil(duration / 5) + 1` samples; sample `i` carries time offset
`min(i*5, duration)` minutes and progress `offset/duration`; the first
sample is at progress `0` and the departure time, the last at progress `1`
and the arrival time; and time and progress are strictly increasing. -/
theorem claim_C2 (O : Oracle) (fd : FlightDetails) (depA arrA : Airport)
    (hd : 0 < fd.durationMinutes) :
    (flightPathOf O fd depA arrA).length = ⌈(fd.durationMinutes : ℚ) / 5⌉₊ + 1 ∧
    (∀ (i : ℕ) (h : i < (flightPathOf O fd depA arrA).length),
      ((flightPathOf O fd depA arrA).get ⟨i, h⟩).time =
          fd.departureTime + ((min (i * 5) fd.durationMinutes : ℕ) : ℤ) * 60 * 1000 ∧
      ((flightPathOf O fd depA arrA).get ⟨i, h⟩).progress =
          ((min (i * 5) fd.durationMinutes : ℕ) : ℚ) / (fd.durationMinutes : ℚ)) ∧
    (∀ h0 : 0 < (flightPathOf O fd depA arrA).length,
      ((flightPathOf O fd depA arrA).get ⟨0, h0⟩).progress = 0 ∧
      ((flightPathOf O fd depA arrA).get ⟨0, h0⟩).time = fd.departureTime) ∧
    (∀ hl : (flightPathOf O fd depA arrA).length - 1 < (flightPathOf O fd depA arrA).length,
      ((flightPathOf O fd depA arrA).get
          ⟨(flightPathOf O fd depA arrA).length - 1, hl⟩).progress = 1 ∧
      ((flightPathOf O fd depA arrA).get
          ⟨(flightPathOf O fd depA arrA).length - 1, hl⟩).time =
        fd.departureTime + (fd.durationMinutes : ℤ) * 60 * 1000) ∧
    (∀ (i j : ℕ) (hi : i < (flightPathOf O fd depA arrA).length)
        (hj : j < (flightPathOf O fd depA arrA).length), i < j →
      ((flightPathOf O fd depA arrA).get ⟨i, hi⟩).time <
          ((flightPathOf O fd depA arrA).get ⟨j, hj⟩).time ∧
      ((flightPathOf O fd depA arrA).get ⟨i, hi⟩).progress <
          ((flightPathOf O fd depA arrA).get ⟨j, hj⟩).progress) := by
  have hlen : (flightPathOf O fd depA arrA).length = numIntervals fd + 1 :=
    flightPathOf_length O fd depA arrA
  refine ⟨hlen, ?_, ?_, ?_, ?_⟩
  · intro i h
    rw [flightPathOf_get]
    exact ⟨sampleStep_time O fd _ _ _ i, sampleStep_progress O fd _ _ _ i⟩
  · intro h0
    rw [flightPathOf_get]
    rw [sampleStep_progress, sampleStep_time]
    constructor
    · norm_num
    · norm_num
  · intro hl
    have hidx : (flightPathOf O fd depA arrA).length - 1 = numIntervals fd := by
      rw [hlen]
      omega
    have hminlast : min (numIntervals fd * 5) fd.durationMinutes = fd.durationMinutes :=
      min_eq_right (le_ceil_mul_five fd.durationMinutes)
    constructor
    · have := sampleStep_progress O fd
        (⟨depA.latitude, depA.longitude⟩ : Coord)
        (O.getDistance ⟨depA.latitude, depA.longitude⟩ ⟨arrA.latitude, arrA.longitude⟩)
        (O.getRhumbLineBearing ⟨depA.latitude, depA.longitude⟩ ⟨arrA.latitude, arrA.longitude⟩)
        (numIntervals fd)
      rw [flightPathOf_get]
      simp only [hidx]
      rw [sampleStep_progress, hminlast]
      exact div_self (by exact_mod_cast hd.ne')
    · rw [flightPathOf_get]
      simp only [hidx]
      rw [sampleStep_time, hminlast]
  · intro i j hi hj hij
    have hj' : j < numIntervals fd + 1 := by rw [← hlen]; exact hj
    have hmono := offsets_strict_mono fd hj' hij
    rw [flightPathOf_get, flightPathOf_get, sampleStep_time, sampleStep_time,
      sampleStep_progress, sampleStep_progress]
    constructor
    · have : ((min (i * 5) fd.durationMinutes : ℕ) : ℤ) <
          ((min (j * 5) fd.durationMinutes : ℕ) : ℤ) := by exact_mod_cast hmono
      linarith
    · have hc : ((min (i * 5) fd.durationMinutes : ℕ) : ℚ) <
          ((min (j * 5) fd.durationMinutes : ℕ) : ℚ) := by exact_mod_cast hmono
      have hdq : (0 : ℚ) < (fd.durationMinutes : ℚ) := by exact_mod_cast hd
      exact div_lt_div_of_pos_right hc hdq

/-- C3. When either airport code fails to resolve, the engine returns the
error-shaped recommendation instead of raising: recommendation `either`,
confidence `0`, no events, empty flight path, zero distance, the unresolved
airport reported with name `Unknown`, and a description ending in the
missing code (the departure code when the departure lookup failed,
otherwise the arrival code). -/
theorem claim_C3 (O : Oracle) (airports : List Airport) (fd : FlightDetails)
    (h : airports.find? (fun a => a.iata == fd.departure) = none ∨
         airports.find? (fun a => a.iata == fd.arrival) = none) :
    (calculateSunPositionForFlight O airports fd).recommendation = Rec3.either ∧
    (calculateSunPositionForFlight O airports fd).confidence = 0 ∧
    (calculateSunPositionForFlight O airports fd).events = [] ∧
    (calculateSunPositionForFlight O airports fd).globeData.flightPath = [] ∧
    (calculateSunPositionForFlight O airports fd).globeData.totalDistance = 0 ∧
    (airports.find? (fun a => a.iata == fd.departure) = none →
      (calculateSunPositionForFlight O airports fd).globeData.departure.name = "Unknown" ∧
      ∃ s : String, (calculateSunPositionForFlight O airports fd).description =
        s ++ fd.departure) ∧
    (∀ x : Airport, airports.find? (fun a => a.iata == fd.departure) = some x →
      airports.find? (fun a => a.iata == fd.arrival) = none →
      (calculateSunPositionForFlight O airports fd).globeData.arrival.name = "Unknown" ∧
      ∃ s : String, (calculateSunPositionForFlight O airports fd).description =
        s ++ fd.arrival) := by
  rcases hdep : airports.find? (fun a => a.iata == fd.departure) with _ | dep
  · simp only [calculateSunPositionForFlight, hdep]
    refine ⟨rfl, rfl, rfl, rfl, rfl, ?_, ?_⟩
    · intro _
      exact ⟨rfl, "Unable to calculate sun position: Airport not found: ", rfl⟩
    · intro x hx _
      exact absurd hx (by simp)
  · rcases harr : airports.find? (fun a => a.iata == fd.arrival) with _ | arr
    · simp only [calculateSunPositionForFlight, hdep, harr]
      refine ⟨rfl, rfl, rfl, rfl, rfl, ?_, ?_⟩
      · intro hx
        exact absurd hx (by simp)
      · intro x _ _
        exact ⟨rfl, "Unable to calculate sun position: Airport not found: ", rfl⟩
    · rcases h with h | h
      · exact absurd h (by simp [hdep])
      · exact absurd h (by simp [harr])

/-- Characterization of the deduplicating filter step. -/
theorem keepAt_eq_some {es : List SunEvent} {i : ℕ} {x : SunEvent} :
    keepAt es i = some x ↔
      es.get? i = some x ∧ es.findIdx (fun e => nearSameType e x) = i := by
  constructor
  · intro h
    rcases hg : es.get? i with _ | ev
    · simp only [keepAt, hg] at h
      simp at h
    · simp only [keepAt, hg] at h
      by_cases hf : es.findIdx (fun e => nearSameType e ev) = i
      · rw [if_pos hf] at h
        have hev : ev = x := by injection h
        subst hev
        exact ⟨rfl, hf⟩
      · rw [if_neg hf] at h
        exact absurd h (by simp)
  · rintro ⟨hg, hf⟩
    simp only [keepAt, hg]
    rw [if_pos hf]

/-- `findIndex` never returns an index beyond a position where the
predicate holds. -/
theorem findIdx_le_of_pred {α : Type} (l : List α) (p : α → Bool) :
    ∀ (i : ℕ) (hi : i < l.length), p (l.get ⟨i, hi⟩) = true → l.findIdx p ≤ i := by
  induction l with
  | nil =>
    intro i hi
    simp at hi
  | cons a t ih =>
    intro i hi hp
    cases i with
    | zero =>
      have hpa : p a = true := hp
      simp [List.findIdx_cons, hpa]
    | succ n =>
      rw [List.findIdx_cons]
      cases hpa : p a
      · simp only [hpa, cond_false]
        have hle := ih n (Nat.succ_lt_succ_iff.mp hi) hp
        omega
      · simp [hpa]

/-- C4. After deduplication no two retained events of the same type lie
within ten minutes of each other, and every retained event sits at a
position that is the `findIndex` of its own same-type-within-ten-minutes
predicate — it is the first same-type event within ten minutes of itself
in scan order. -/
theorem claim_C4 (es : List SunEvent) :
    (uniqueEvents es).Pairwise
      (fun a b => ¬(a.type = b.type ∧ (a.time - b.time).natAbs < 10 * 60 * 1000)) ∧
    ∀ e ∈ uniqueEvents es,
      ∃ i : ℕ, es.get? i = some e ∧ es.findIdx (fun x => nearSameType x e) = i := by
  constructor
  · rw [uniqueEvents, List.pairwise_filterMap]
    refine (List.pairwise_lt_range es.length).imp ?_
    intro i j hij x hx y hy
    rw [Option.mem_def] at hx hy
    obtain ⟨hgx, hfx⟩ := keepAt_eq_some.mp hx
    obtain ⟨hgy, hfy⟩ := keepAt_eq_some.mp hy
    rintro ⟨hty, htime⟩
    obtain ⟨hi, hgetx⟩ := List.get?_eq_some.mp hgx
    have hpred : (fun e => nearSameType e y) (es.get ⟨i, hi⟩) = true := by
      rw [hgetx]
      simp [nearSameType, hty, htime]
    have hle := findIdx_le_of_pred es (fun e => nearSameType e y) i hi hpred
    omega
  · intro e he
    rw [uniqueEvents, List.mem_filterMap] at he
    obtain ⟨i, -, hsome⟩ := he
    obtain ⟨hg, hf⟩ := keepAt_eq_some.mp hsome
    exact ⟨i, hg, hf⟩

/-- C10. On the chain `t, t+8min, t+16min` of same-type events,
deduplication retains only the first event and discards the third, although
the third is sixteen minutes — more than ten — away from every retained
event of its type: each event is compared against the first same-type event
within ten minutes of it (here the discarded middle event), not against the
retained ones. -/
theorem claim_C10 :
    uniqueEvents [dupE0, dupE1, dupE2] = [dupE0] ∧
    dupE2 ∈ [dupE0, dupE1, dupE2] ∧
    dupE2 ∉ uniqueEvents [dupE0, dupE1, dupE2] ∧
    dupE2.type = dupE0.type ∧
    ¬((dupE2.time - dupE0.time).natAbs < 10 * 60 * 1000) := by decide

/-- The events branch of the aggregator: with a non-empty deduplicated list
the strict majority side wins with confidence `min 95 (60 + count * 15)`,
and a tie yields `either` at confidence `75`. -/
theorem recommendationFor_spec (uniq : List SunEvent) (svc lsc rsc : ℕ) (hne : uniq ≠ []) :
    (((uniq.filter fun e => e.viewingSide == Side.right).length <
        (uniq.filter fun e => e.viewingSide == Side.left).length →
      (recommendationFor uniq svc lsc rsc).recommendation = Rec3.left ∧
      (recommendationFor uniq svc lsc rsc).confidence =
        min 95 (60 + ((uniq.filter fun e => e.viewingSide == Side.left).length : ℚ) * 15))) ∧
    (((uniq.filter fun e => e.viewingSide == Side.left).length <
        (uniq.filter fun e => e.viewingSide == Side.right).length →
      (recommendationFor uniq svc lsc rsc).recommendation = Rec3.right ∧
      (recommendationFor uniq svc lsc rsc).confidence =
        min 95 (60 + ((uniq.filter fun e => e.viewingSide == Side.right).length : ℚ) * 15))) ∧
    ((uniq.filter fun e => e.viewingSide == Side.left).length =
        (uniq.filter fun e => e.viewingSide == Side.right).length →
      (recommendationFor uniq svc lsc rsc).recommendation = Rec3.either ∧
      (recommendationFor uniq svc lsc rsc).confidence = 75) := by
  have hpos : 0 < uniq.length := List.length_pos.mpr hne
  refine ⟨fun hcmp => ?_, fun hcmp => ?_, fun hcmp => ?_⟩
  · simp only [recommendationFor, if_pos hpos, if_pos hcmp]
    exact ⟨trivial, trivial⟩
  · simp only [recommendationFor, if_pos hpos, if_neg (Nat.lt_asymm hcmp), if_pos hcmp]
    exact ⟨trivial, trivial⟩
  · simp only [recommendationFor, if_pos hpos,
      if_neg (by omega : ¬(uniq.filter fun e => e.viewingSide == Side.right).length <
        (uniq.filter fun e => e.viewingSide == Side.left).length),
      if_neg (by omega : ¬(uniq.filter fun e => e.viewingSide == Side.left).length <
        (uniq.filter fun e => e.viewingSide == Side.right).length)]
    exact ⟨trivial, trivial⟩

/-- C5. Whenever the deduplicated event list of a run is non-empty, the
returned recommendation is the side holding the strict majority of the
events, with confidence `min 95 (60 + majorityCount * 15)`; equal counts
yield `either` with confidence `75`. -/
theorem claim_C5 (O : Oracle) (fd : FlightDetails) (depA arrA : Airport)
    (hne : (happyPath O fd depA arrA).events ≠ []) :
    ((((happyPath O fd depA arrA).events.filter
          fun e => e.viewingSide == Side.right).length <
        ((happyPath O fd depA arrA).events.filter
          fun e => e.viewingSide == Side.left).length →
      (happyPath O fd depA arrA).recommendation = Rec3.left ∧
      (happyPath O fd depA arrA).confidence =
        min 95 (60 + (((happyPath O fd depA arrA).events.filter
          fun e => e.viewingSide == Side.left).length : ℚ) * 15)) ∧
    ((((happyPath O fd depA arrA).events.filter
          fun e => e.viewingSide == Side.left).length <
        ((happyPath O fd depA arrA).events.filter
          fun e => e.viewingSide == Side.right).length →
      (happyPath O fd depA arrA).recommendation = Rec3.right ∧
      (happyPath O fd depA arrA).confidence =
        min 95 (60 + (((happyPath O fd depA arrA).events.filter
          fun e => e.viewingSide == Side.right).length : ℚ) * 15))) ∧
    (((happyPath O fd depA arrA).events.filter
          fun e => e.viewingSide == Side.left).length =
        ((happyPath O fd depA arrA).events.filter
          fun e => e.viewingSide == Side.right).length →
      (happyPath O fd depA arrA).recommendation = Rec3.either ∧
      (happyPath O fd depA arrA).confidence = 75)) := by
  exact recommendationFor_spec (uniqueEvents (sunEventsOf O fd depA arrA))
    ((flightPathOf O fd depA arrA).countP fun p => p.sunPosition.visible)
    ((flightPathOf O fd depA arrA).countP fun p => p.viewingSide == some Side.left)
    ((flightPathOf O fd depA arrA).countP fun p => p.viewingSide == some Side.right)
    hne

/-- C6. At a sample whose location and date yield no sunrise and no sunset
instant (the polar day/night sentinel, `none` standing for an invalid
`Date`), the loop iteration emits no event — and, the embedding being a
total function, the calculation cannot throw there. -/
theorem claim_C6 (O : Oracle) (fd : FlightDetails) (dc : Coord) (td fb : ℚ) (i : ℕ)
    (h : O.getTimes ((sampleStep O fd dc td fb i).1.time)
        ((sampleStep O fd dc td fb i).1.location) = (none, none)) :
    (sampleStep O fd dc td fb i).2 = none := by
  simp only [sampleStep] at h ⊢
  rw [h]
  simp [nearB]

/-- Every confidence value produced by the aggregator lies in `[0, 100]`. -/
theorem recommendationFor_confidence_bounds (uniq : List SunEvent)
    (svc lsc rsc : ℕ) :
    0 ≤ (recommendationFor uniq svc lsc rsc).confidence ∧
    (recommendationFor uniq svc lsc rsc).confidence ≤ 100 := by
  unfold recommendationFor
  dsimp only []
  split_ifs
  · exact ⟨le_min (by norm_num) (by positivity), min_le_of_left_le (by norm_num)⟩
  · exact ⟨le_min (by norm_num) (by positivity), min_le_of_left_le (by norm_num)⟩
  · exact ⟨by norm_num, by norm_num⟩
  · exact ⟨le_min (by norm_num) (by positivity), min_le_of_left_le (by norm_num)⟩
  · exact ⟨le_min (by norm_num) (by positivity), min_le_of_left_le (by norm_num)⟩
  · exact ⟨by norm_num, by norm_num⟩
  · exact ⟨by norm_num, by norm_num⟩

/-- The average sun visibility of a successful run lies in `[0, 100]`. -/
theorem averageSunVisibility_bounds (O : Oracle) (fd : FlightDetails)
    (depA arrA : Airport) :
    0 ≤ (happyPath O fd depA arrA).globeData.summary.averageSunVisibility ∧
    (happyPath O fd depA arrA).globeData.summary.averageSunVisibility ≤ 100 := by
  have hlen : 0 < (flightPathOf O fd depA arrA).length := by
    rw [flightPathOf_length]
    omega
  have havg : (happyPath O fd depA arrA).globeData.summary.averageSunVisibility =
      ((((flightPathOf O fd depA arrA).countP fun p => p.sunPosition.visible) : ℚ) /
        ((flightPathOf O fd depA arrA).length : ℚ)) * 100 := by
    simp only [happyPath]
    rw [if_pos hlen]
  have hcount : ((flightPathOf O fd depA arrA).countP fun p => p.sunPosition.visible) ≤
      (flightPathOf O fd depA arrA).length := List.countP_le_length _
  have hlenq : (0 : ℚ) < ((flightPathOf O fd depA arrA).length : ℚ) := by
    exact_mod_cast hlen
  have hdiv : ((((flightPathOf O fd depA arrA).countP fun p => p.sunPosition.visible) : ℚ) /
      ((flightPathOf O fd depA arrA).length : ℚ)) ≤ 1 :=
    (div_le_one hlenq).mpr (by exact_mod_cast hcount)
  constructor
  · rw [havg]
    positivity
  · rw [havg]
    nlinarith [hdiv]

/-- C7. With resolvable airports the returned recommendation is one of
`left`, `right`, `either`; the confidence lies in `[0, 100]`; and the
summary average sun visibility lies in `[0, 100]`. -/
theorem claim_C7 (O : Oracle) (airports : List Airport) (fd : FlightDetails)
    (depA arrA : Airport)
    (hd : airports.find? (fun a => a.iata == fd.departure) = some depA)
    (ha : airports.find? (fun a => a.iata == fd.arrival) = some arrA) :
    ((calculateSunPositionForFlight O airports fd).recommendation = Rec3.left ∨
      (calculateSunPositionForFlight O airports fd).recommendation = Rec3.right ∨
      (calculateSunPositionForFlight O airports fd).recommendation = Rec3.either) ∧
    0 ≤ (calculateSunPositionForFlight O airports fd).confidence ∧
    (calculateSunPositionForFlight O airports fd).confidence ≤ 100 ∧
    0 ≤ (calculateSunPositionForFlight O airports fd).globeData.summary.averageSunVisibility ∧
    (calculateSunPositionForFlight O airports fd).globeData.summary.averageSunVisibility ≤ 100 := by
  have hres : calculateSunPositionForFlight O airports fd = happyPath O fd depA arrA := by
    simp only [calculateSunPositionForFlight, hd, ha]
  rw [hres]
  have hconf := recommendationFor_confidence_bounds (uniqueEvents (sunEventsOf O fd depA arrA))
    ((flightPathOf O fd depA arrA).countP fun p => p.sunPosition.visible)
    ((flightPathOf O fd depA arrA).countP fun p => p.viewingSide == some Side.left)
    ((flightPathOf O fd depA arrA).countP fun p => p.viewingSide == some Side.right)
  have havg := averageSunVisibility_bounds O fd depA arrA
  refine ⟨?_, hconf.1, hconf.2, havg.1, havg.2⟩
  rcases hr : (happyPath O fd depA arrA).recommendation with _ | _ | _
  · exact Or.inl rfl
  · exact Or.inr (Or.inl rfl)
  · exact Or.inr (Or.inr rfl)

/-- C8. When departure and arrival carry the same code resolving to one
airport record, the run succeeds with total distance `0` and every
flight-path point located at that airport (under the geodesy contract that
the self-distance is `0` and the destination point at distance `0` is the
origin). -/
theorem claim_C8 (O : Oracle) (airports : List Airport) (fd : FlightDetails) (A : Airport)
    (hG : GeodesyContract O)
    (heq : fd.departure = fd.arrival)
    (hd : airports.find? (fun a => a.iata == fd.departure) = some A) :
    (calculateSunPositionForFlight O airports fd).globeData.totalDistance = 0 ∧
    ∀ p ∈ (calculateSunPositionForFlight O airports fd).globeData.flightPath,
      p.location = ⟨A.latitude, A.longitude⟩ := by
  have ha : airports.find? (fun a => a.iata == fd.arrival) = some A := by
    rw [← heq]
    exact hd
  have hres : calculateSunPositionForFlight O airports fd = happyPath O fd A A := by
    simp only [calculateSunPositionForFlight, hd, ha]
  rw [hres]
  have hdist : O.getDistance ⟨A.latitude, A.longitude⟩ ⟨A.latitude, A.longitude⟩ = 0 :=
    hG.1 _
  constructor
  · exact hdist
  · intro p hp
    have hp' : p ∈ flightPathOf O fd A A := hp
    simp only [flightPathOf, List.mem_map, List.mem_range] at hp'
    obtain ⟨i, -, rfl⟩ := hp'
    have hloc : (sampleStep O fd ⟨A.latitude, A.longitude⟩
        (O.getDistance ⟨A.latitude, A.longitude⟩ ⟨A.latitude, A.longitude⟩)
        (O.getRhumbLineBearing ⟨A.latitude, A.longitude⟩ ⟨A.latitude, A.longitude⟩)
        i).1.location =
        O.computeDestinationPoint ⟨A.latitude, A.longitude⟩
          (O.getDistance ⟨A.latitude, A.longitude⟩ ⟨A.latitude, A.longitude⟩ *
            (((min (i * 5) fd.durationMinutes : ℕ) : ℚ) / (fd.durationMinutes : ℚ)))
          (O.getRhumbLineBearing ⟨A.latitude, A.longitude⟩ ⟨A.latitude, A.longitude⟩) := rfl
    rw [hloc, hdist, zero_mul]
    exact hG.2 _ _

/-- A raw event emitted by a loop iteration carries the elevation of a
sample at which the sun was visible, so that elevation is positive. -/
theorem sampleStep_event_elevation (O : Oracle) (fd : FlightDetails) (dc : Coord)
    (td fb : ℚ) (i : ℕ) (e : SunEvent)
    (h : (sampleStep O fd dc td fb i).2 = some e) : 0 < e.elevation := by
  simp only [sampleStep] at h
  split at h
  next hv =>
    split at h
    next hcond =>
      have he : _ = e := (Option.some.injEq _ _).mp h
      rw [← he]
      exact of_decide_eq_true hv
    next => exact absurd h (by simp)
  next => exact absurd h (by simp)

/-- C9. Every event in the returned list has strictly positive sun
elevation (event detection runs only at samples where the sun is visible,
so the `-5°` twilight floor never lets a below-horizon point through), and its
viewing side is defined — it is one of the two cabin sides. -/
theorem claim_C9 (O : Oracle) (airports : List Airport) (fd : FlightDetails) :
    ∀ e ∈ (calculateSunPositionForFlight O airports fd).events,
      0 < e.elevation ∧ (e.viewingSide = Side.left ∨ e.viewingSide = Side.right) := by
  intro e he
  have hside : e.viewingSide = Side.left ∨ e.viewingSide = Side.right := by
    rcases hv : e.viewingSide with _ | _
    · exact Or.inl rfl
    · exact Or.inr rfl
  refine ⟨?_, hside⟩
  rcases hdep : airports.find? (fun a => a.iata == fd.departure) with _ | depA
  · rw [calculateSunPositionForFlight] at he
    rw [hdep] at he
    simp [errorResult] at he
  · rcases harr : airports.find? (fun a => a.iata == fd.arrival) with _ | arrA
    · rw [calculateSunPositionForFlight] at he
      rw [hdep, harr] at he
      simp [errorResult] at he
    · have he' : e ∈ uniqueEvents (sunEventsOf O fd depA arrA) := by
        have hres : calculateSunPositionForFlight O airports fd =
            happyPath O fd depA arrA := by
          simp only [calculateSunPositionForFlight, hdep, harr]
        rw [hres] at he
        exact he
      rw [uniqueEvents, List.mem_filterMap] at he'
      obtain ⟨j, -, hsome⟩ := he'
      obtain ⟨hg, -⟩ := keepAt_eq_some.mp hsome
      have hmem : e ∈ sunEventsOf O fd depA arrA := List.get?_mem hg
      rw [sunEventsOf, List.mem_filterMap] at hmem
      obtain ⟨i, -, hev⟩ := hmem
      exact sampleStep_event_elevation O fd _ _ _ i e hev

/-- The sample flight needs one five-minute interval. -/
theorem wNum_eval : numIntervals wFlight = 1 := by
  rw [numIntervals, show ((wFlight.durationMinutes : ℚ) / 5) = 1 by norm_num [wFlight]]
  exact Nat.ceil_one

/-- The sample run produces exactly the two points `wP0`, `wP1`. -/
theorem wPath_eval : flightPathOf wOracle wFlight wDep wArr = [wP0, wP1] := by
  simp only [flightPathOf, wNum_eval]
  norm_num [List.range_succ, sampleStep, wOracle, wFlight, wDep, wArr, wP0, wP1,
    jsRem, truncQ, sideOf, nearB]

/-- The sample run emits exactly the two raw sunrise events `wE0`, `wE1`. -/
theorem wEvents_eval : sunEventsOf wOracle wFlight wDep wArr = [wE0, wE1] := by
  simp only [sunEventsOf, wNum_eval]
  norm_num [List.range_succ, List.filterMap_cons, List.filterMap_nil, sampleStep,
    wOracle, wFlight, wDep, wArr, wE0, wE1, jsRem, truncQ, sideOf, nearB]

/-- Deduplication of the sample run keeps only the first sunrise event. -/
theorem wHappy_events : (happyPath wOracle wFlight wDep wArr).events = [wE0] := by
  show uniqueEvents (sunEventsOf wOracle wFlight wDep wArr) = [wE0]
  rw [wEvents_eval]
  decide

/-- The sample oracle satisfies the documented angle conventions. -/
theorem wOracle_convention : ConventionContract wOracle := by
  constructor
  · intro a b
    constructor <;> norm_num [wOracle]
  · intro t c
    constructor <;> norm_num [wOracle]

/-- Concrete instance of C1: at the first sample of the sample run the sun
is visible and the viewing side matches the specified classification. -/
theorem claim_C1_witness :
    wP0.sunPosition.visible = true ∧
    wP0.viewingSide =
      some (if 0 < qmod360 (wP0.sunPosition.azimuth - wP0.aircraftBearing) ∧
          qmod360 (wP0.sunPosition.azimuth - wP0.aircraftBearing) < 180
        then Side.right else Side.left) := by
  have hmem : wP0 ∈ flightPathOf wOracle wFlight wDep wArr := by
    rw [wPath_eval]
    exact List.mem_cons_self _ _
  exact ⟨rfl, ((claim_C1 wOracle wFlight wDep wArr wOracle_convention wP0 hmem).2 rfl).2.2⟩

/-- Concrete instance of C2: the five-minute sample flight yields two
samples. -/
theorem claim_C2_witness :
    0 < wFlight.durationMinutes ∧ (flightPathOf wOracle wFlight wDep wArr).length = 2 := by
  refine ⟨by norm_num [wFlight], ?_⟩
  rw [(claim_C2 wOracle wFlight wDep wArr (by norm_num [wFlight])).1,
    show ((wFlight.durationMinutes : ℚ) / 5) = 1 by norm_num [wFlight], Nat.ceil_one]

/-- Concrete instance of C3: the unknown departure code `ZZZ` yields the
degraded result. -/
theorem claim_C3_witness :
    wAirports.find? (fun a => a.iata == wBad.departure) = none ∧
    (calculateSunPositionForFlight wOracle wAirports wBad).confidence = 0 ∧
    (calculateSunPositionForFlight wOracle wAirports wBad).globeData.departure.name =
      "Unknown" := by
  have hnone : wAirports.find? (fun a => a.iata == wBad.departure) = none := by decide
  have h := claim_C3 wOracle wAirports wBad (Or.inl hnone)
  exact ⟨hnone, h.2.1, (h.2.2.2.2.2.1 hnone).1⟩

/-- Concrete instance of C4: the singleton event list is pairwise free of
same-type near-duplicates after deduplication. -/
theorem claim_C4_witness :
    (uniqueEvents [dupE0]).Pairwise
      (fun a b => ¬(a.type = b.type ∧ (a.time - b.time).natAbs < 10 * 60 * 1000)) :=
  (claim_C4 [dupE0]).1

/-- Concrete instance of C5: the sample run has one deduplicated left-side
event and recommends the left side. -/
theorem claim_C5_witness :
    (happyPath wOracle wFlight wDep wArr).events ≠ [] ∧
    (happyPath wOracle wFlight wDep wArr).recommendation = Rec3.left := by
  have hne : (happyPath wOracle wFlight wDep wArr).events ≠ [] := by
    rw [wHappy_events]
    simp
  refine ⟨hne, ?_⟩
  exact ((claim_C5 wOracle wFlight wDep wArr hne).1 (by rw [wHappy_events]; decide)).1

/-- Concrete instance of C6: with both solar instants missing the first
sample of the sample run emits no event. -/
theorem claim_C6_witness :
    wOracleNT.getTimes ((sampleStep wOracleNT wFlight ⟨0, 0⟩ 0 0 0).1.time)
        ((sampleStep wOracleNT wFlight ⟨0, 0⟩ 0 0 0).1.location) = (none, none) ∧
    (sampleStep wOracleNT wFlight ⟨0, 0⟩ 0 0 0).2 = none :=
  ⟨rfl, claim_C6 wOracleNT wFlight ⟨0, 0⟩ 0 0 0 rfl⟩

/-- Concrete instance of C7: the sample run resolves both airports and its
confidence is non-negative. -/
theorem claim_C7_witness :
    wAirports.find? (fun a => a.iata == wFlight.departure) = some wDep ∧
    wAirports.find? (fun a => a.iata == wFlight.arrival) = some wArr ∧
    0 ≤ (calculateSunPositionForFlight wOracle wAirports wFlight).confidence := by
  have hd : wAirports.find? (fun a => a.iata == wFlight.departure) = some wDep := by decide
  have ha : wAirports.find? (fun a => a.iata == wFlight.arrival) = some wArr := by decide
  exact ⟨hd, ha, (claim_C7 wOracle wAirports wFlight wDep wArr hd ha).2.1⟩

/-- Concrete instance of C8: the sample oracle meets the geodesy contract
and the equal-code flight has zero total distance. -/
theorem claim_C8_witness :
    GeodesyContract wOracle ∧
    (calculateSunPositionForFlight wOracle wAirports wSame).globeData.totalDistance = 0 := by
  have hG : GeodesyContract wOracle := ⟨fun _ => rfl, fun _ _ => rfl⟩
  have hd : wAirports.find? (fun a => a.iata == wSame.departure) = some wDep := by decide
  exact ⟨hG, (claim_C8 wOracle wAirports wSame wDep hG rfl hd).1⟩

/-- Concrete instance of C9: the deduplicated sunrise event of the sample
run has positive elevation and a defined viewing side. -/
theorem claim_C9_witness :
    0 < wE0.elevation ∧ (wE0.viewingSide = Side.left ∨ wE0.viewingSide = Side.right) := by
  have hd : wAirports.find? (fun a => a.iata == wFlight.departure) = some wDep := by decide
  have ha : wAirports.find? (fun a => a.iata == wFlight.arrival) = some wArr := by decide
  have hres : calculateSunPositionForFlight wOracle wAirports wFlight =
      happyPath wOracle wFlight wDep wArr := by
    simp only [calculateSunPositionForFlight, hd, ha]
  have hmem : wE0 ∈ (calculateSunPositionForFlight wOracle wAirports wFlight).events := by
    rw [hres, wHappy_events]
    exact List.mem_cons_self _ _
  exact claim_C9 wOracle wAirports wFlight wE0 hmem
